import Mathlib

/-!
# Fresh-Scan-MVP: verification of the spec's claims against the source

A shallow embedding of the infrastructure subsystems of the Fresh-Scan-MVP
repository (profile-aware artifact cache, password validator and providers,
database connection state machine, circuit breaker, optimistic-locking
grocery updates, per-user Blinkit session paths, and session creation in the
authentication service), with theorems settling the frozen claims.

Modelling conventions:
* Python strings are Lean `String`s; character-level operations (`lower`,
  `strip`, containment, filtering) are written over `String.data`
  (`List Char`) so they compute by kernel reduction.  Python `str` methods
  `isalnum`, `isupper`, `islower`, `isdigit` are modelled by the ASCII
  predicates `Char.isAlphanum`, `Char.isUpper`, `Char.isLower`,
  `Char.isDigit`: the embedding covers ASCII data, which is what every
  concrete input in this development uses.
* Python `dict`s used as keyed stores are association lists
  (`List (String × α)`) with first-match lookup; insertion replaces any
  existing binding.
* Timestamps (`datetime.now()`, `datetime.utcnow()`) are integer seconds
  (`Int`); a `timedelta` is the difference of two such integers.  Python's
  `timedelta.seconds` attribute (NOT `total_seconds()`) is the normalized
  seconds component, i.e. `d % 86400` with Python's nonnegative `%`, which
  is exactly Lean's `Int.emod`.
* `bcrypt.checkpw` is modelled as comparison against the stored plaintext
  (`BcryptHash` wraps the password the hash was derived from): the hash is
  treated as collision-free, which is the property the surrounding code
  relies on.
* Fallible I/O (a database insert that may raise) is driven by explicit
  fault flags passed to the embedded function; a raised exception is an
  `Except.error`.
-/

deriving instance DecidableEq for Except

namespace FreshScan

/-! ## Generic helpers: Python-style strings and dict-like association lists -/

/-- Python `s.lower()` (ASCII model): lowercase every character. -/
def strLower (s : String) : String := (s.data.map Char.toLower).asString

/-- Python `s.strip()`: drop leading and trailing whitespace. -/
def pyStrip (s : String) : String :=
  ((s.data.dropWhile Char.isWhitespace).reverse.dropWhile Char.isWhitespace).reverse.asString

/-- Python `s.endswith(suffix)`. -/
def strEndsWith (s suffix : String) : Bool := suffix.data.isSuffixOf s.data

/-- `containsSub hay needle`: Python `needle in hay` on character lists
(some contiguous infix of `hay` equals `needle`). -/
def containsSub : List Char → List Char → Bool
  | [], needle => needle.isEmpty
  | hay@(_ :: t), needle => needle.isPrefixOf hay || containsSub t needle

/-- Python `needle in hay` for strings. -/
def strContains (hay needle : String) : Bool := containsSub hay.data needle.data

/-- Python `s[:n]`. -/
def strTake (s : String) (n : Nat) : String := (s.data.take n).asString

/-- First-match lookup in an association list (Python `d.get(k)` / `d[k]`). -/
def alLookup {α : Type} (l : List (String × α)) (k : String) : Option α :=
  (l.find? (fun p => p.1 == k)).map (fun p => p.2)

/-- Remove every binding of key `k` (helper for `alInsert` and for
`os.remove` on a file keyed by its name). -/
def alErase {α : Type} (k : String) (l : List (String × α)) : List (String × α) :=
  l.filter (fun p => !(p.1 == k))

/-- Python `d[k] = v`: afterwards `k` is bound to `v` and all other keys
keep their bindings. -/
def alInsert {α : Type} (k : String) (v : α) (l : List (String × α)) : List (String × α) :=
  alErase k l ++ [(k, v)]

/-- Python `sorted` on a list of strings (lexicographic code-point order). -/
def pySorted (l : List String) : List String := List.insertionSort (· ≤ ·) l

/-! ## SHA-256 (`hashlib.sha256(...).hexdigest()`), over `Nat` mod 2^32 -/

/-- Addition modulo 2^32. -/
def add32 (a b : Nat) : Nat := (a + b) % 4294967296

/-- Right-rotation of a 32-bit word by `n` places. -/
def rotr32 (n x : Nat) : Nat := ((x <<< (32 - n)) % 4294967296) ||| (x >>> n)

/-- Bitwise complement within 32 bits. -/
def not32 (x : Nat) : Nat := 4294967295 - x

/-- SHA-256 `Ch` function. -/
def shaCh (x y z : Nat) : Nat := (x &&& y) ^^^ (not32 x &&& z)

/-- SHA-256 `Maj` function. -/
def shaMaj (x y z : Nat) : Nat := (x &&& y) ^^^ (x &&& z) ^^^ (y &&& z)

/-- SHA-256 big sigma 0 (rotations by 2, 13, 22). -/
def sigBig0 (x : Nat) : Nat := rotr32 2 x ^^^ rotr32 13 x ^^^ rotr32 22 x

/-- SHA-256 big sigma 1 (rotations by 6, 11, 25). -/
def sigBig1 (x : Nat) : Nat := rotr32 6 x ^^^ rotr32 11 x ^^^ rotr32 25 x

/-- SHA-256 small sigma 0 (rotations by 7, 18, shift 3). -/
def sigSmall0 (x : Nat) : Nat := rotr32 7 x ^^^ rotr32 18 x ^^^ (x >>> 3)

/-- SHA-256 small sigma 1 (rotations by 17, 19, shift 10). -/
def sigSmall1 (x : Nat) : Nat := rotr32 17 x ^^^ rotr32 19 x ^^^ (x >>> 10)

/-- The 64 SHA-256 round constants (FIPS 180-4), in decimal. -/
def sha256K : List Nat :=
  [1116352408, 1899447441, 3049323471, 3921009573, 961987163, 1508970993,
   2453635748, 2870763221, 3624381080, 310598401, 607225278, 1426881987,
   1925078388, 2162078206, 2614888103, 3248222580, 3835390401, 4022224774,
   264347078, 604807628, 770255983, 1249150122, 1555081692, 1996064986,
   2554220882, 2821834349, 2952996808, 3210313671, 3336571891, 3584528711,
   113926993, 338241895, 666307205, 773529912, 1294757372, 1396182291,
   1695183700, 1986661051, 2177026350, 2456956037, 2730485921, 2820302411,
   3259730800, 3345764771, 3516065817, 3600352804, 4094571909, 275423344,
   430227734, 506948616, 659060556, 883997877, 958139571, 1322822218,
   1537002063, 1747873779, 1955562222, 2024104815, 2227730452, 2361852424,
   2428436474, 2756734187, 3204031479, 3329325298]

/-- The SHA-256 initial hash value (FIPS 180-4), in decimal. -/
def sha256H0 : List Nat :=
  [1779033703, 3144134277, 1013904242, 2773480762,
   1359893119, 2600822924, 528734635, 1541459225]

/-- A 64-bit big-endian byte encoding. -/
def u64be (n : Nat) : List Nat := (List.range 8).map (fun i => (n >>> (8 * (7 - i))) % 256)

/-- SHA-256 message padding: `0x80`, zeros to 56 mod 64, 8-byte bit length. -/
def shaPad (msg : List Nat) : List Nat :=
  msg ++ [128] ++ List.replicate ((119 - msg.length % 64) % 64) 0 ++ u64be (8 * msg.length)

/-- The 16 big-endian 32-bit words of a 64-byte block. -/
def blockWords (b : List Nat) : List Nat :=
  (List.range 16).map (fun i =>
    (b.getD (4 * i) 0) <<< 24 + (b.getD (4 * i + 1) 0) <<< 16 +
    (b.getD (4 * i + 2) 0) <<< 8 + b.getD (4 * i + 3) 0)

/-- Extend 16 message-schedule words to 64. -/
def shaSchedule (w16 : List Nat) : List Nat :=
  (List.range 48).foldl
    (fun w _ =>
      w ++ [add32 (add32 (sigSmall1 (w.getD (w.length - 2) 0)) (w.getD (w.length - 7) 0))
                  (add32 (sigSmall0 (w.getD (w.length - 15) 0)) (w.getD (w.length - 16) 0))])
    w16

/-- The eight SHA-256 working variables. -/
structure Sha8 where
  a : Nat
  b : Nat
  c : Nat
  d : Nat
  e : Nat
  f : Nat
  g : Nat
  h : Nat

/-- One SHA-256 compression round. -/
def shaRound (s : Sha8) (k w : Nat) : Sha8 :=
  let t1 := add32 (add32 (add32 s.h (sigBig1 s.e)) (add32 (shaCh s.e s.f s.g) k)) w
  let t2 := add32 (sigBig0 s.a) (shaMaj s.a s.b s.c)
  ⟨add32 t1 t2, s.a, s.b, s.c, add32 s.d t1, s.e, s.f, s.g⟩

/-- Compress one 64-byte block into the running hash (eight words). -/
def shaCompress (hs : List Nat) (block : List Nat) : List Nat :=
  let ws := shaSchedule (blockWords block)
  let s0 : Sha8 := ⟨hs.getD 0 0, hs.getD 1 0, hs.getD 2 0, hs.getD 3 0,
                    hs.getD 4 0, hs.getD 5 0, hs.getD 6 0, hs.getD 7 0⟩
  let s := (List.range 64).foldl (fun s t => shaRound s (sha256K.getD t 0) (ws.getD t 0)) s0
  [add32 s.a (hs.getD 0 0), add32 s.b (hs.getD 1 0), add32 s.c (hs.getD 2 0),
   add32 s.d (hs.getD 3 0), add32 s.e (hs.getD 4 0), add32 s.f (hs.getD 5 0),
   add32 s.g (hs.getD 6 0), add32 s.h (hs.getD 7 0)]

/-- One hex digit (lowercase, as Python `hexdigest`). -/
def hexDigit (n : Nat) : Char := if n < 10 then Char.ofNat (48 + n) else Char.ofNat (87 + n)

/-- A 32-bit word as 8 hex characters. -/
def hex8 (x : Nat) : String := ((List.range 8).map (fun i => hexDigit ((x >>> (4 * (7 - i))) % 16))).asString

/-- `hashlib.sha256(bytes).hexdigest()`. -/
def sha256Hex (msg : List Nat) : String :=
  let padded := shaPad msg
  let blocks := (List.range (padded.length / 64)).map (fun i => (padded.drop (64 * i)).take 64)
  String.join ((blocks.foldl shaCompress sha256H0).map hex8)

/-- UTF-8 bytes of a string (ASCII model: one byte per character, valid for
the ASCII data handled here; `json.dumps` with its default `ensure_ascii`
always produces ASCII). -/
def strBytes (s : String) : List Nat := s.data.map Char.toNat

/-! ## Profile-aware cache (`src/auth/cache.py`) -/

/-- A user-profile dict as `generate_profile_hash` reads it: the three
fields the fingerprint extracts (each defaulting to `[]` when absent) plus
all remaining key/value pairs, which the fingerprint never touches. -/
structure UserProfileDict where
  allergies : List String
  diet_types : List String
  cultural_restrictions : List String
  otherFields : List (String × String)

/-- JSON string escaping for the quote and backslash (the inputs handled
here contain no control characters). -/
def jsonEscapeChar (c : Char) : List Char :=
  if c = '\\' then ['\\', '\\']
  else if c = Char.ofNat 34 then ['\\', Char.ofNat 34]
  else [c]

/-- A JSON string literal. -/
def jsonString (s : String) : String :=
  (Char.ofNat 34 :: (s.data.flatMap jsonEscapeChar) ++ [Char.ofNat 34]).asString

/-- `json.dumps` of a list of strings (default separators). -/
def jsonStringList (l : List String) : String :=
  "[" ++ String.intercalate ", " (l.map jsonString) ++ "]"

/-- `json.dumps(fingerprint, sort_keys=True)` for the fingerprint dict of
`generate_profile_hash`: keys in sorted order are `allergies`,
`cultural_restrictions`, `diet_types`. -/
def fingerprintJson (allergies diet_types cultural_restrictions : List String) : String :=
  "\x7b" ++ jsonString "allergies" ++ ": " ++ jsonStringList allergies ++ ", " ++
  jsonString "cultural_restrictions" ++ ": " ++ jsonStringList cultural_restrictions ++ ", " ++
  jsonString "diet_types" ++ ": " ++ jsonStringList diet_types ++ "\x7d"

/-- `generate_profile_hash` (src/auth/cache.py:44): sort the three relevant
fields, serialize the fingerprint dict with sorted keys, SHA-256 it and keep
the first 16 hex characters. -/
def generate_profile_hash (user_profile : UserProfileDict) : String :=
  strTake (sha256Hex (strBytes (fingerprintJson
    (pySorted user_profile.allergies)
    (pySorted user_profile.diet_types)
    (pySorted user_profile.cultural_restrictions)))) 16

/-- One parsed on-disk cache file as `cache_response` writes it:
`cached_at` timestamp, payload, mode, `invalidated` flag, and the
`profile_version` key present exactly when a profile was supplied. -/
structure DiskEntry where
  cached_at : Int
  response : String
  mode : String
  invalidated : Bool
  profile_version : Option String
  deriving DecidableEq

/-- The two cache tiers of `ProfileAwareCacheManager`: the in-memory map
and the cache directory (filename to parsed JSON entry). -/
structure CacheState where
  memory_cache : List (String × String)
  disk : List (String × DiskEntry)
  deriving DecidableEq

/-- `ProfileAwareCacheManager.get_cache_key` (src/auth/cache.py:96).
`user_profile = none` models both a missing and a falsy (empty) profile. -/
def get_cache_key (image_hash mode : String) (user_profile : Option UserProfileDict) : String :=
  match user_profile with
  | some p => image_hash ++ "_" ++ mode ++ "_" ++ generate_profile_hash p
  | none => image_hash ++ "_" ++ mode

/-- `ProfileAwareCacheManager.get_cached_response` (src/auth/cache.py:115):
memory tier first (returned as-is), else the disk entry, rejected (and the
file removed) when invalidated, older than the TTL, or carrying a profile
version different from the supplied profile's hash; a disk hit is
rehydrated into memory. -/
def get_cached_response (ttl_hours : Nat) (st : CacheState) (image_hash mode : String)
    (user_profile : Option UserProfileDict) (now : Int) : Option String × CacheState :=
  let cache_key := get_cache_key image_hash mode user_profile
  match alLookup st.memory_cache cache_key with
  | some r => (some r, st)
  | none =>
    let cache_file := cache_key ++ ".json"
    match alLookup st.disk cache_file with
    | none => (none, st)
    | some data =>
      if data.invalidated then
        (none, { st with disk := alErase cache_file st.disk })
      else if now - data.cached_at > (ttl_hours : Int) * 3600 then
        (none, { st with disk := alErase cache_file st.disk })
      else
        match user_profile with
        | some p =>
          if generate_profile_hash p ≠ data.profile_version.getD "" then
            (none, { st with disk := alErase cache_file st.disk })
          else
            (some data.response, { st with memory_cache := alInsert cache_key data.response st.memory_cache })
        | none =>
          (some data.response, { st with memory_cache := alInsert cache_key data.response st.memory_cache })

/-- `ProfileAwareCacheManager.cache_response` (src/auth/cache.py:178):
write both tiers; the entry records the write time, the payload, the mode,
`invalidated = False`, and the profile hash when a profile was supplied. -/
def cache_response (st : CacheState) (image_hash mode response : String)
    (user_profile : Option UserProfileDict) (now : Int) : Bool × CacheState :=
  let cache_key := get_cache_key image_hash mode user_profile
  let entry : DiskEntry :=
    { cached_at := now, response := response, mode := mode, invalidated := false,
      profile_version := user_profile.map generate_profile_hash }
  (true, { memory_cache := alInsert cache_key response st.memory_cache,
           disk := alInsert (cache_key ++ ".json") entry st.disk })

/-- The per-file body of `invalidate_cache_for_user`: skip filenames not
ending in `.json`, otherwise rewrite the entry with `invalidated = True`
and count it. -/
def invalidateStep (acc : Nat × List (String × DiskEntry)) (f : String × DiskEntry) :
    Nat × List (String × DiskEntry) :=
  if strEndsWith f.1 ".json" then
    (acc.1 + 1, acc.2 ++ [(f.1, { f.2 with invalidated := true })])
  else
    (acc.1, acc.2 ++ [f])

/-- `ProfileAwareCacheManager.invalidate_cache_for_user`
(src/auth/cache.py:221): walk every file of the cache directory, mark each
`.json` entry invalidated, clear the whole in-memory map, return the count.
The `username` argument is only logged by the source, never used for
selection. -/
def invalidate_cache_for_user (username : String) (st : CacheState) : Nat × CacheState :=
  let r := st.disk.foldl invalidateStep (0, [])
  let _ := username
  (r.1, { memory_cache := [], disk := r.2 })

/-! ## Password validation (`src/auth/validators.py`) and registration
(`src/auth/providers.py`) -/

/-- The static `COMMON_PASSWORDS` set (src/auth/validators.py:18). -/
def COMMON_PASSWORDS : List String :=
  ["password", "123456", "12345678", "qwerty", "abc123", "monkey",
   "1234567", "letmein", "trustno1", "dragon", "baseball", "111111",
   "iloveyou", "master", "sunshine", "ashley", "bailey", "passw0rd",
   "shadow", "123123", "654321", "superman", "qazwsx", "michael",
   "football", "welcome", "jesus", "ninja", "mustang", "password1",
   "123456789", "adobe123", "admin", "1234567890", "photoshop",
   "1234", "12345", "princess", "azerty", "000000", "access",
   "696969", "batman", "1qaz2wsx", "login", "qwertyuiop", "solo",
   "starwars", "whatever", "donald", "charlie", "aa123456", "freedom",
   "lovely", "7777777", "888888", "flower", "hottie", "loveme",
   "zaq1zaq1", "password123", "!@#$%^&*", "hello", "freedom",
   "computer", "121212", "123321", "1q2w3e4r", "secret", "123qwe",
   "test", "123abc", "password!", "qwerty123", "welcome123", "admin123"]

/-- The special-character class of the validator's regex
(src/auth/validators.py:128). -/
def specialChars : List Char :=
  ['!', '@', '#', '$', '%', '^', '&', '*', '(', ')', '_', '+', '-', '=', '[', ']'] ++
  [Char.ofNat 123, Char.ofNat 125, ';', ':', Char.ofNat 39, Char.ofNat 34] ++
  [',', '.', '<', '>', '?', '/', '\\', '|', Char.ofNat 96, '~']

/-- `PasswordValidator.MIN_LENGTH`. -/
def passwordMinLength : Nat := 8

/-- The errors list built by `PasswordValidator.validate`
(src/auth/validators.py:91), in source order.  The strength score and the
suggestions list do not influence validity and are not modelled. -/
def passwordValidateErrors (password : String) (username : Option String) : List String :=
  (if password.data.length < passwordMinLength then
    ["Password must be at least 8 characters"] else []) ++
  (if password.data.any Char.isUpper then [] else
    ["Password must contain at least one uppercase letter"]) ++
  (if password.data.any Char.isLower then [] else
    ["Password must contain at least one lowercase letter"]) ++
  (if password.data.any Char.isDigit then [] else
    ["Password must contain at least one digit"]) ++
  (if password.data.any (fun c => specialChars.contains c) then [] else
    ["Password must contain at least one special character"]) ++
  (if COMMON_PASSWORDS.contains (strLower password) then
    ["Password is too common"] else []) ++
  (match username with
   | some u =>
     if u ≠ "" ∧ strContains (strLower password) (strLower u) then
       ["Password should not contain username"] else []
   | none => [])

/-- `PasswordValidator.validate(...).is_valid`: no errors. -/
def passwordIsValid (password : String) (username : Option String) : Bool :=
  (passwordValidateErrors password username).isEmpty

/-- `normalize_email` (src/auth/validators.py:671): strip and lowercase. -/
def normalize_email (email : String) : String := strLower (pyStrip email)

/-- The local part of an email: Python `email.rsplit('@', 1)[0]`
(the whole string when there is no `@`). -/
def email_local_part (email : String) : String :=
  if email.data.contains '@' then
    ((email.data.reverse.dropWhile (fun c => c ≠ '@')).drop 1).reverse.asString
  else
    email

/-- The password-policy step of `EmailPasswordProvider.register`
(src/auth/providers.py:177): the password is validated with the normalized
email (the FULL address, not its local part) as the `username` argument. -/
def registerPasswordAccepted (email password : String) : Bool :=
  passwordIsValid password (some (normalize_email email))

/-! ## Per-user Blinkit session paths
(`BlinkitSessionManager`, src/src/services/integrations/blinkit.py) -/

/-- The session manager's configuration: the base cache directory as a list
of path segments (a `Path` is modelled as its segments). -/
structure BlinkitSessionManager where
  base_cache_dir : List String

/-- The username sanitization of `_get_user_session_dir`
(blinkit.py:1853): keep alphanumerics, underscore and hyphen, then
lowercase the result. -/
def sanitize_username (username : String) : String :=
  ((username.data.filter (fun c => c.isAlphanum || c = '_' || c = '-')).map Char.toLower).asString

/-- `self.sessions_dir = self.base_cache_dir / "blinkit_sessions"`. -/
def sessions_dir (m : BlinkitSessionManager) : List String :=
  m.base_cache_dir ++ ["blinkit_sessions"]

/-- `BlinkitSessionManager._get_user_session_dir` (blinkit.py:1842). -/
def get_user_session_dir (m : BlinkitSessionManager) (username : String) : List String :=
  sessions_dir m ++ [sanitize_username username]

/-- `BlinkitSessionManager.get_auth_state_path` (blinkit.py:1995), via
`_get_auth_state_path` (blinkit.py:1860): the per-user session directory
joined with `auth_state.json` (`.absolute()` only prefixes the working
directory, which is part of `base_cache_dir` here). -/
def get_auth_state_path (m : BlinkitSessionManager) (username : String) : List String :=
  get_user_session_dir m username ++ ["auth_state.json"]

/-- The longest common prefix of two segment paths. -/
def commonPrefix : List String → List String → List String
  | x :: xs, y :: ys => if x = y then x :: commonPrefix xs ys else []
  | _, _ => []

/-! ## Token manager and session creation (`src/auth/oauth.py`) -/

/-- `TokenType` (oauth.py:322). -/
inductive TokenType where
  | ACCESS
  | REFRESH
  | RESET
  deriving DecidableEq

/-- `TokenClaims` (oauth.py:330). -/
structure TokenClaims where
  sub : String
  email : String
  iat : Int
  exp : Int
  jti : String
  type : TokenType
  deriving DecidableEq

/-- A signed JWT: its claims plus the key it was signed with (the signature
verifies under a key iff the keys agree). -/
structure Jwt where
  claims : TokenClaims
  signedWith : String
  deriving DecidableEq

/-- `TokenManager` configuration (oauth.py:373): signing key and the three
expiry durations in seconds. -/
structure TokenManager where
  secret_key : String
  access_token_expiry : Int
  refresh_token_expiry : Int
  reset_token_expiry : Int

/-- `TokenManager.generate_access_token` (oauth.py:391); the freshly drawn
`jti` (`secrets.token_hex(16)`) is an explicit input. -/
def generate_access_token (tm : TokenManager) (user_id email : String) (now : Int)
    (jti : String) : Jwt :=
  ⟨⟨user_id, email, now, now + tm.access_token_expiry, jti, TokenType.ACCESS⟩, tm.secret_key⟩

/-- `TokenManager.generate_refresh_token` (oauth.py:421). -/
def generate_refresh_token (tm : TokenManager) (user_id email : String) (now : Int)
    (jti : String) : Jwt :=
  ⟨⟨user_id, email, now, now + tm.refresh_token_expiry, jti, TokenType.REFRESH⟩, tm.secret_key⟩

/-- `TokenManager.validate_token` (oauth.py:481): signature must verify
(same key), the type must match, and the token must not be expired
(`utcnow().timestamp() > exp` rejects). -/
def validate_token (tm : TokenManager) (token : Jwt) (expected_type : TokenType)
    (now : Int) : Option TokenClaims :=
  if token.signedWith = tm.secret_key ∧ token.claims.type = expected_type ∧ now ≤ token.claims.exp then
    some token.claims
  else
    none

/-- `TokenPair` (oauth.py:556). -/
structure TokenPair where
  access_token : Jwt
  refresh_token : Jwt
  deriving DecidableEq

/-- A session row of the `auth_sessions` collection as `_create_session`
inserts it (oauth.py:962); `device_info` sub-fields come from the metadata
dict with the source's defaults. -/
structure SessionRow where
  user_id : String
  access_token_jti : String
  refresh_token_jti : String
  device_interface : String
  device_user_agent : String
  device_ip_address : String
  created_at : Int
  expires_at : Int
  last_activity : Int
  revoked : Bool
  deriving DecidableEq

/-- A `tokens_issued` row of `auth_audit_log` as `_create_session` inserts
it (oauth.py:980). -/
structure TokensIssuedAudit where
  user_id : String
  email : String
  success : Bool
  timestamp : Int
  deriving DecidableEq

/-- One write issued by `_create_session`, tagged with the client session
(transaction) it was issued under: the source passes NO `session=` argument
to either insert (a bare `DatabaseConnectionContext` holds no transaction),
so the tag is always `none`; `MongoTransaction` operations would tag their
writes with their session id. -/
inductive SessionDbWrite where
  | insertSession (row : SessionRow) (txn : Option Nat)
  | insertAudit (row : TokensIssuedAudit) (txn : Option Nat)
  deriving DecidableEq

/-- The transaction tag of a write. -/
def writeTxn : SessionDbWrite → Option Nat
  | SessionDbWrite.insertSession _ t => t
  | SessionDbWrite.insertAudit _ t => t

/-- The claim's "inserted together in a single transaction": some one
transaction encloses every write of the trace (and there is a write). -/
def inSingleTransaction (trace : List SessionDbWrite) : Prop :=
  trace ≠ [] ∧ ∃ t : Nat, ∀ w ∈ trace, writeTxn w = some t

/-- The session store touched by `_create_session`. -/
structure SessionDb where
  sessions : List SessionRow
  audit_log : List TokensIssuedAudit
  deriving DecidableEq

/-- Faults injected into the two inserts: `true` means the corresponding
`insert_one` raises. -/
structure SessionDbFaults where
  session_insert_fails : Bool
  audit_insert_fails : Bool

/-- `AuthenticationService._create_session` (oauth.py:922): generate both
tokens, validate them (raising `ValueError` when validation fails), insert
the session row and then the `tokens_issued` audit record — two separate
non-transactional writes — and only then return the `TokenPair`.  A raised
insert propagates, so no pair is returned.  Returns (result, final store,
write trace). -/
def create_session (tm : TokenManager) (db : SessionDb) (user_id email : String)
    (metadata : List (String × String)) (now : Int) (jtiA jtiR : String)
    (faults : SessionDbFaults) :
    Except String TokenPair × SessionDb × List SessionDbWrite :=
  let access_token := generate_access_token tm user_id email now jtiA
  let refresh_token := generate_refresh_token tm user_id email now jtiR
  match validate_token tm access_token TokenType.ACCESS now,
        validate_token tm refresh_token TokenType.REFRESH now with
  | some access_claims, some refresh_claims =>
    let session_doc : SessionRow :=
      { user_id := user_id,
        access_token_jti := access_claims.jti,
        refresh_token_jti := refresh_claims.jti,
        device_interface := (alLookup metadata "interface").getD "cli",
        device_user_agent := (alLookup metadata "user_agent").getD "unknown",
        device_ip_address := (alLookup metadata "ip_address").getD "unknown",
        created_at := now,
        expires_at := refresh_claims.exp,
        last_activity := now,
        revoked := false }
    if faults.session_insert_fails then
      (Except.error "session insert failed", db, [])
    else
      let db1 : SessionDb := { db with sessions := db.sessions ++ [session_doc] }
      let trace1 := [SessionDbWrite.insertSession session_doc none]
      if faults.audit_insert_fails then
        (Except.error "audit insert failed", db1, trace1)
      else
        let audit_doc : TokensIssuedAudit :=
          { user_id := user_id, email := email, success := true, timestamp := now }
        (Except.ok ⟨access_token, refresh_token⟩,
         { db1 with audit_log := db1.audit_log ++ [audit_doc] },
         trace1 ++ [SessionDbWrite.insertAudit audit_doc none])
  | _, _ =>
    (Except.error "Failed to validate newly generated tokens", db, [])

/-! ## Database connection state machine (`src/database/connection.py`) -/

/-- `ConnectionStatus` (connection.py:16). -/
inductive ConnectionStatus where
  | DISCONNECTED
  | CONNECTING
  | CONNECTED
  | ERROR
  deriving DecidableEq

/-- The metrics fields `ensure_connected` touches (connection.py:29). -/
structure ConnMetrics where
  connection_attempts : Nat
  connection_failures : Nat
  last_error : Option String
  deriving DecidableEq

/-- The manager state `ensure_connected` reads and writes. -/
structure DbConn where
  state : ConnectionStatus
  hasClient : Bool
  connection_error : Option String
  metrics : ConnMetrics
  deriving DecidableEq

/-- What one run of `ensure_connected` did: final state, the manager state
recorded after each attempt, the `time.sleep` durations (seconds, in
order), and the outcome (`.error e` is `DatabaseConnectionError` carrying
the last underlying error `e`). -/
structure EnsureLog where
  final : DbConn
  statesAfterAttempts : List ConnectionStatus
  delays : List Nat
  result : Except String Unit
  deriving DecidableEq

/-- The retry loop of `ensure_connected` (connection.py:145): `attempt` is
the current loop index, `remaining` the attempts left
(`max_retries - attempt`); `outcomes attempt` is the result of this
attempt's factory call plus `server_info()` round-trip (`none` = success,
`some e` = the exception's message).  A failed attempt records the failure
in the metrics and moves the manager to `ERROR`; before every non-final
retry the loop sleeps `1 * (attempt + 1)` seconds; the final failure raises
with the last error. -/
def ensureGo (outcomes : Nat → Option String) : DbConn → Nat → Nat → EnsureLog
  | st, _, 0 => ⟨st, [], [], Except.ok ()⟩
  | st, attempt, r + 1 =>
    let st1 : DbConn :=
      { st with state := ConnectionStatus.CONNECTING,
                metrics := { st.metrics with connection_attempts := st.metrics.connection_attempts + 1 } }
    match outcomes attempt with
    | none =>
      let st2 : DbConn :=
        { st1 with state := ConnectionStatus.CONNECTED, hasClient := true, connection_error := none }
      ⟨st2, [ConnectionStatus.CONNECTED], [], Except.ok ()⟩
    | some e =>
      let st2 : DbConn :=
        { st1 with state := ConnectionStatus.ERROR, hasClient := false, connection_error := some e,
                   metrics := { st1.metrics with
                                connection_failures := st1.metrics.connection_failures + 1,
                                last_error := some e } }
      match r with
      | 0 => ⟨st2, [ConnectionStatus.ERROR], [], Except.error e⟩
      | r' + 1 =>
        let rest := ensureGo outcomes st2 (attempt + 1) (r' + 1)
        ⟨rest.final, ConnectionStatus.ERROR :: rest.statesAfterAttempts,
         (1 * (attempt + 1)) :: rest.delays, rest.result⟩

/-- `DatabaseStateMachine.ensure_connected` (connection.py:125): returns
immediately when already connected, otherwise runs up to `max_retries`
attempts (a `max_retries` of zero falls through the loop doing nothing,
exactly as the Python `for` does). -/
def ensure_connected (outcomes : Nat → Option String) (st : DbConn) (max_retries : Nat) : EnsureLog :=
  if st.state = ConnectionStatus.CONNECTED then ⟨st, [], [], Except.ok ()⟩
  else ensureGo outcomes st 0 max_retries

/-- A freshly constructed manager. -/
def initialDbConn : DbConn :=
  ⟨ConnectionStatus.DISCONNECTED, false, none, ⟨0, 0, none⟩⟩

/-! ## Circuit breaker (`src/services/camera.py`) -/

/-- `CircuitState` (camera.py:24). -/
inductive CircuitState where
  | CLOSED
  | OPEN
  | HALF_OPEN
  deriving DecidableEq

/-- `CircuitBreaker` state (camera.py:37). -/
structure CircuitBreaker where
  failure_threshold : Nat
  timeout : Int
  failure_count : Nat
  last_failure_time : Option Int
  state : CircuitState
  deriving DecidableEq

/-- A breaker with the source's defaults (threshold 5, timeout 60s). -/
def defaultBreaker : CircuitBreaker := ⟨5, 60, 0, none, CircuitState.CLOSED⟩

/-- The outcome of one `CircuitBreaker.call`: `rejected` is the
circuit-open exception raised WITHOUT invoking the wrapped function;
`succeeded`/`failed` report the invoked function's own outcome (a failure
re-raises the function's exception). -/
inductive CallOutcome where
  | rejected
  | succeeded
  | failed
  deriving DecidableEq

/-- Python `(datetime.now() - last_failure_time).seconds` for integer
timestamps: the normalized seconds component of the timedelta, i.e. the
difference modulo 86400 — NOT the total elapsed seconds. -/
def timedeltaSecondsComponent (d : Int) : Int := d % 86400

/-- The body shared by both entry paths of `CircuitBreaker.call`
(camera.py:74): invoke the function; success closes the breaker and resets
the count; failure increments the count, stamps `last_failure_time`, and
opens the breaker when the count reaches the threshold. -/
def breakerInvoke (b : CircuitBreaker) (now : Int) (funcResult : Except String String) :
    CallOutcome × CircuitBreaker :=
  match funcResult with
  | Except.ok _ =>
    (CallOutcome.succeeded, { b with state := CircuitState.CLOSED, failure_count := 0 })
  | Except.error _ =>
    let fc := b.failure_count + 1
    (CallOutcome.failed,
     { b with failure_count := fc, last_failure_time := some now,
              state := if fc ≥ b.failure_threshold then CircuitState.OPEN else b.state })

/-- `CircuitBreaker.call` (camera.py:51): in `OPEN`, move to `HALF_OPEN`
and probe only when `(now - last_failure_time).seconds >= timeout`
(the `.seconds` component, which wraps every 24 hours); otherwise raise the
circuit-open exception without invoking the function.  `funcResult` is what
the wrapped function would do if invoked. -/
def CircuitBreaker.call (b : CircuitBreaker) (now : Int) (funcResult : Except String String) :
    CallOutcome × CircuitBreaker :=
  match b.state with
  | CircuitState.OPEN =>
    match b.last_failure_time with
    | some t =>
      if timedeltaSecondsComponent (now - t) ≥ b.timeout then
        breakerInvoke { b with state := CircuitState.HALF_OPEN } now funcResult
      else
        (CallOutcome.rejected, b)
    | none => (CallOutcome.rejected, b)
  | _ => breakerInvoke b now funcResult

/-- Run a sequence of calls (time, would-be function result) through the
breaker, returning the final breaker state. -/
def breakerRun (b : CircuitBreaker) : List (Int × Except String String) → CircuitBreaker
  | [] => b
  | c :: cs => breakerRun (b.call c.1 c.2).2 cs

/-! ## Grocery-list optimistic locking (`src/services/grocery.py`) -/

/-- A `grocery_lists` document with the fields
`_update_grocery_list_with_locking` reads or writes. -/
structure GroceryDoc where
  username : String
  name : String
  version : Nat
  items : List String
  total_items : Nat
  updated_at : Int
  deriving DecidableEq

/-- The caller-supplied `updates` dict of the one caller
(`_update_existing_grocery_list_internal`, grocery.py:168): new name, items
and item count; `version` and `updated_at` are added by the function
itself. -/
structure GroceryUpdates where
  name : String
  items : List String
  total_items : Nat

/-- The errors `_update_grocery_list_with_locking` raises. -/
inductive GroceryError where
  | versionConflict
  | notFound
  deriving DecidableEq

/-- `update_one` on a collection modelled as a document list: apply `f` to
the FIRST document matching `p` (pymongo `update_one` semantics), returning
`matched_count` and the updated collection. -/
def updateOneDoc {α : Type} (p : α → Bool) (f : α → α) : List α → Nat × List α
  | [] => (0, [])
  | d :: ds =>
    if p d then (1, f d :: ds)
    else
      let r := updateOneDoc p f ds
      (r.1, d :: r.2)

/-- Python `(expected_version or 0)`: `None` and `0` are falsy. -/
def pyOrZero (expected_version : Option Nat) : Nat :=
  match expected_version with
  | some v => if v ≠ 0 then v else 0
  | none => 0

/-- The filter of the locking update: username, list name, and — when an
expected version was passed — `version = expected_version`. -/
def groceryQuery (username list_name : String) (expected_version : Option Nat)
    (d : GroceryDoc) : Bool :=
  d.username == username && d.name == list_name &&
    (match expected_version with
     | some v => d.version == v
     | none => true)

/-- The `$set` document applied on a match: the caller's updates plus
`version := (expected_version or 0) + 1` and a fresh `updated_at`. -/
def groceryApply (updates : GroceryUpdates) (expected_version : Option Nat) (now : Int)
    (d : GroceryDoc) : GroceryDoc :=
  { d with name := updates.name, items := updates.items, total_items := updates.total_items,
           version := pyOrZero expected_version + 1, updated_at := now }

/-- `GroceryListManagerMixin._update_grocery_list_with_locking`
(grocery.py:17): update with the version-checking filter; on
`matched_count == 0`, raise `VersionConflictError` when an expected version
was passed and the row still exists (read inside the same transaction),
else `ValueError`.  A raised error aborts the surrounding transaction, so
the store is returned only on success. -/
def update_grocery_list_with_locking (store : List GroceryDoc) (username list_name : String)
    (updates : GroceryUpdates) (expected_version : Option Nat) (now : Int) :
    Except GroceryError (List GroceryDoc) :=
  let r := updateOneDoc (groceryQuery username list_name expected_version)
                        (groceryApply updates expected_version now) store
  if r.1 = 0 then
    match expected_version with
    | some _ =>
      match store.find? (fun d => d.username == username && d.name == list_name) with
      | some _ => Except.error GroceryError.versionConflict
      | none => Except.error GroceryError.notFound
    | none => Except.error GroceryError.notFound
  else
    Except.ok r.2

/-! ## Email/password authentication (`src/auth/providers.py`) -/

/-- A bcrypt hash, modelled as the password it hashes (collision-free
verification: `checkpw(p, hash_of(q))` iff `p = q`). -/
structure BcryptHash where
  password : String
  deriving DecidableEq

/-- `bcrypt.checkpw`. -/
def checkpw (password : String) (h : BcryptHash) : Bool := password == h.password

/-- The `security` sub-document of a `users_v2` row (providers.py:208),
restricted to the fields `authenticate` touches. -/
structure SecurityInfo where
  failed_login_attempts : Nat
  locked_until : Option Int
  last_login : Option Int
  deriving DecidableEq

/-- A `users_v2` row with the fields `authenticate` reads or writes. -/
structure UserRow where
  id : Nat
  email : String
  auth_provider : String
  email_verified : Bool
  password_hash : BcryptHash
  security : SecurityInfo
  deriving DecidableEq

/-- An `auth_audit_log` row as `authenticate` inserts it. -/
structure LoginAudit where
  event_type : String
  user_id : Option Nat
  email : String
  ip_address : String
  success : Bool
  failure_reason : Option String
  timestamp : Int
  deriving DecidableEq

/-- The collections `authenticate` touches. -/
structure AuthDb where
  users : List UserRow
  audit_log : List LoginAudit
  deriving DecidableEq

/-- `AuthResult` (providers.py:53), with `user_id` as the row id. -/
structure AuthResult where
  success : Bool
  user_id : Option Nat
  email : Option String
  error_message : Option String
  requires_verification : Bool
  deriving DecidableEq

/-- The `AuthConfig` knobs `authenticate` reads (src/auth/config.py):
`MAX_LOGIN_ATTEMPTS`, `LOCKOUT_DURATION` (seconds),
`REQUIRE_EMAIL_VERIFICATION`. -/
structure AuthCfg where
  max_login_attempts : Nat
  lockout_duration : Int
  require_email_verification : Bool

/-- The source's defaults: 5 attempts, 1800 s (30 min) lockout, no email
verification. -/
def defaultAuthCfg : AuthCfg := ⟨5, 1800, false⟩

/-- The credentials dict of `EmailPasswordProvider.authenticate`. -/
structure Credentials where
  email : String
  password : String
  ip_address : String

/-- `find_one({'email': email, 'auth_provider': 'email'})`. -/
def findUserByEmail (users : List UserRow) (email : String) : Option UserRow :=
  users.find? (fun u => u.email == email && u.auth_provider == "email")

/-- `find_one({'_id': id})` (first row with the id). -/
def findUserById (users : List UserRow) (id : Nat) : Option UserRow :=
  users.find? (fun u => u.id == id)

/-- `update_one({'_id': id}, {'$set': ...})`: rewrite the first row with
the id. -/
def updateUserById (users : List UserRow) (id : Nat) (f : UserRow → UserRow) : List UserRow :=
  (updateOneDoc (fun u => u.id == id) f users).2

/-- The account-locked failure message
(`f"Account locked. Try again in {remaining} minutes"`, providers.py:296);
`remaining = (locked_until - utcnow()).seconds // 60` — again the
`.seconds` component. -/
def lockedMessage (locked_until now : Int) : String :=
  "Account locked. Try again in " ++ toString (timedeltaSecondsComponent (locked_until - now) / 60) ++
  " minutes"

/-- The `$set` applied to a user row after a hash mismatch
(providers.py:304): the incremented counter, plus the lockout stamp once
the counter reaches the configured maximum. -/
def failedLoginUpdate (cfg : AuthCfg) (failed_attempts : Nat) (now : Int) (u : UserRow) : UserRow :=
  let u1 := { u with security := { u.security with failed_login_attempts := failed_attempts } }
  if failed_attempts ≥ cfg.max_login_attempts then
    { u1 with security := { u1.security with locked_until := some (now + cfg.lockout_duration) } }
  else
    u1

/-- The `$set` applied on successful login (providers.py:345): counter
cleared, lock cleared, `last_login` stamped. -/
def successLoginUpdate (now : Int) (u : UserRow) : UserRow :=
  { u with security := { u.security with failed_login_attempts := 0, locked_until := none,
                                         last_login := some now } }

/-- The part of `EmailPasswordProvider.authenticate` after the lock check
(providers.py:299): verify the hash; on a mismatch increment
`failed_login_attempts` (locking at the threshold) and log `login_failed`;
a match with verification pending fails without touching the row; a full
success resets the counters, stamps `last_login`, and logs
`login_success`. -/
def authenticateUnlocked (cfg : AuthCfg) (db : AuthDb) (creds : Credentials) (email : String)
    (user : UserRow) (now : Int) : AuthResult × AuthDb :=
  if ¬ checkpw creds.password user.password_hash then
    let failed_attempts := user.security.failed_login_attempts + 1
    let users' := updateUserById db.users user.id (failedLoginUpdate cfg failed_attempts now)
    let audit : LoginAudit :=
      ⟨"login_failed", some user.id, email, creds.ip_address, false, some "invalid_password", now⟩
    (⟨false, none, none, some "Invalid email or password", false⟩,
     { users := users', audit_log := db.audit_log ++ [audit] })
  else if cfg.require_email_verification ∧ ¬ user.email_verified then
    (⟨false, none, none,
      some "Email not verified. Please check your email for verification link", true⟩, db)
  else
    let users' := updateUserById db.users user.id (successLoginUpdate now)
    let audit : LoginAudit :=
      ⟨"login_success", some user.id, email, creds.ip_address, true, none, now⟩
    (⟨true, some user.id, some email, none, false⟩,
     { users := users', audit_log := db.audit_log ++ [audit] })

/-- `EmailPasswordProvider.authenticate` (providers.py:250): normalize the
email; look the user up; reject while `locked_until` is in the future
(before even touching the password); otherwise continue with
`authenticateUnlocked`. -/
def authenticate (cfg : AuthCfg) (db : AuthDb) (creds : Credentials) (now : Int) :
    AuthResult × AuthDb :=
  let email := normalize_email creds.email
  match findUserByEmail db.users email with
  | none =>
    let audit : LoginAudit :=
      ⟨"login_failed", none, email, creds.ip_address, false, some "user_not_found", now⟩
    (⟨false, none, none, some "Invalid email or password", false⟩,
     { db with audit_log := db.audit_log ++ [audit] })
  | some user =>
    match user.security.locked_until with
    | some t =>
      if now < t then
        (⟨false, none, none, some (lockedMessage t now), false⟩, db)
      else
        authenticateUnlocked cfg db creds email user now
    | none => authenticateUnlocked cfg db creds email user now

/-! ## Concrete fixtures used by counterexamples and witnesses -/

/-- A session manager rooted at the default `cache` directory. -/
def blinkitMgr : BlinkitSessionManager := ⟨["cache"]⟩

/-- A token manager with the source's default expiries. -/
def c2Tm : TokenManager := ⟨"signing-secret-0123456789abcdef", 900, 2592000, 3600⟩

/-- One fault-free session creation on an empty store. -/
def c2Run : Except String TokenPair × SessionDb × List SessionDbWrite :=
  create_session c2Tm ⟨[], []⟩ "uid1" "alice@example.com" [] 1000 "jtiA" "jtiR" ⟨false, false⟩

/-- A profile with one allergy. -/
def c3Profile : UserProfileDict := ⟨["nuts"], [], [], []⟩

/-- The cache after storing a response for `c3Profile` at time 0. -/
def c3State : CacheState :=
  (cache_response ⟨[], []⟩ "img" "recipes" "resp" (some c3Profile) 0).2

/-- A cache state with an empty memory tier and one fresh disk entry for
the profile-independent key `i_m`. -/
def c3WitnessState : CacheState := ⟨[], [("i_m.json", ⟨0, "ok", "m", false, none⟩)]⟩

/-- Factory outcomes where every attempt fails, with distinct messages. -/
def c5Outcomes : Nat → Option String := fun i => some (["e1", "e2", "e3", "e4"].getD i "unused")

/-- `ensure_connected(max_retries=4)` on a fresh manager with all four
attempts failing. -/
def c5Run : EnsureLog := ensure_connected c5Outcomes initialDbConn 4

/-- Five consecutive dependency failures at time 0. -/
def c6FailCalls : List (Int × Except String String) :=
  List.replicate 5 ((0 : Int), Except.error "boom")

/-- The default breaker after five consecutive failures. -/
def c6OpenBreaker : CircuitBreaker := breakerRun defaultBreaker c6FailCalls

/-- A registered user with four prior failed attempts and no lock. -/
def c8User : UserRow := ⟨1, "bob@example.com", "email", true, ⟨"Correct-Horse-9"⟩, ⟨4, none, none⟩⟩

/-- A one-user database. -/
def c8Db : AuthDb := ⟨[c8User], []⟩

/-- Credentials with a wrong password (and an email differing in case). -/
def c8Creds : Credentials := ⟨"Bob@Example.com", "wrong-password", "203.0.113.9"⟩

/-- A profile whose allergy list is in one order. -/
def c10ProfileA : UserProfileDict :=
  ⟨["nuts", "dairy"], ["vegan"], ["halal"], [("household_size", "3")]⟩

/-- The same fingerprint fields as multisets, with a different element
order and different other fields. -/
def c10ProfileB : UserProfileDict :=
  ⟨["dairy", "nuts"], ["vegan"], ["halal"], [("budget", "low")]⟩

/-! ## Helper lemmas -/

/-- Sorting is invariant under permutation of the input. -/
theorem pySorted_perm_eq {l₁ l₂ : List String} (h : l₁.Perm l₂) : pySorted l₁ = pySorted l₂ :=
  List.eq_of_perm_of_sorted
    ((List.perm_insertionSort _ l₁).trans (h.trans (List.perm_insertionSort _ l₂).symm))
    (List.sorted_insertionSort _ l₁) (List.sorted_insertionSort _ l₂)

/-- Lookup after insertion of the same key. -/
theorem alLookup_alInsert_self {α : Type} (k : String) (v : α) (l : List (String × α)) :
    alLookup (alInsert k v l) k = some v := by
  induction l with
  | nil => simp [alLookup, alInsert, alErase, List.find?]
  | cons hd tl ih =>
    by_cases h : hd.1 == k
    · show alLookup (alErase k (hd :: tl) ++ [(k, v)]) k = some v
      simp only [alErase, List.filter_cons, h]
      exact ih
    · show alLookup (alErase k (hd :: tl) ++ [(k, v)]) k = some v
      simp only [alErase, List.filter_cons, h, if_true, Bool.not_eq_true]
      show alLookup ((hd :: alErase k tl) ++ [(k, v)]) k = some v
      simp only [List.cons_append, alLookup, List.find?, h]
      exact ih

/-- The fold of `invalidate_cache_for_user` in closed form. -/
theorem invalidate_foldl (files : List (String × DiskEntry)) (n : Nat)
    (acc : List (String × DiskEntry)) :
    files.foldl invalidateStep (n, acc) =
      (n + (files.filter (fun f => strEndsWith f.1 ".json")).length,
       acc ++ files.map (fun f =>
         if strEndsWith f.1 ".json" then (f.1, { f.2 with invalidated := true }) else f)) := by
  induction files generalizing n acc with
  | nil => simp
  | cons hd tl ih =>
    rw [List.foldl_cons]
    by_cases h : strEndsWith hd.1 ".json"
    · rw [show invalidateStep (n, acc) hd =
            (n + 1, acc ++ [(hd.1, { hd.2 with invalidated := true })]) by
          simp [invalidateStep, h], ih]
      refine Prod.ext ?_ ?_
      · simp [h]; omega
      · simp [h]
    · rw [show invalidateStep (n, acc) hd = (n, acc ++ [hd]) by simp [invalidateStep, h], ih]
      refine Prod.ext ?_ ?_
      · simp [h]
      · simp [h]

/-- The longest common prefix of two paths that share `b` and then split. -/
theorem commonPrefix_append (b : List String) (x y : String) (xs ys : List String)
    (h : x ≠ y) : commonPrefix (b ++ x :: xs) (b ++ y :: ys) = b := by
  induction b with
  | nil => simp [commonPrefix, h]
  | cons hd tl ih => simp [commonPrefix, ih]

/-! ## The claims -/

/-- C10: `generate_profile_hash` depends only on the multisets of values of
`allergies`, `diet_types` and `cultural_restrictions`: permuting the
elements of any of the three lists, or changing any other profile field,
leaves the 16-hex-character fingerprint — and hence every
profile-dependent cache key — unchanged. -/
theorem c10_profile_hash_invariance (p q : UserProfileDict)
    (ha : p.allergies.Perm q.allergies)
    (hd : p.diet_types.Perm q.diet_types)
    (hc : p.cultural_restrictions.Perm q.cultural_restrictions) :
    generate_profile_hash p = generate_profile_hash q ∧
    ∀ image_hash mode : String,
      get_cache_key image_hash mode (some p) = get_cache_key image_hash mode (some q) := by
  have h : generate_profile_hash p = generate_profile_hash q := by
    unfold generate_profile_hash
    rw [pySorted_perm_eq ha, pySorted_perm_eq hd, pySorted_perm_eq hc]
  exact ⟨h, fun image_hash mode => by simp [get_cache_key, h]⟩

/-- C10 witness: two concrete profiles whose fingerprint fields are equal
as multisets but differently ordered, with different other fields. -/
theorem c10_profile_hash_witness :
    generate_profile_hash c10ProfileA = generate_profile_hash c10ProfileB ∧
    ∀ image_hash mode : String,
      get_cache_key image_hash mode (some c10ProfileA) =
        get_cache_key image_hash mode (some c10ProfileB) :=
  c10_profile_hash_invariance c10ProfileA c10ProfileB (by decide) (by decide) (by decide)

/-- C9: `invalidate_cache_for_user` ignores its `username` argument for
selection: it marks EVERY `.json` entry of the cache directory invalidated
(leaving other files untouched), clears the whole in-memory map, and
returns the number of `.json` entries rewritten — so one user's profile
edit invalidates every user's cached artifacts. -/
theorem c9_invalidate_all_users (username username' : String) (st : CacheState) :
    (invalidate_cache_for_user username st).2.memory_cache = [] ∧
    (invalidate_cache_for_user username st).2.disk =
      st.disk.map (fun f =>
        if strEndsWith f.1 ".json" then (f.1, { f.2 with invalidated := true }) else f) ∧
    (invalidate_cache_for_user username st).1 =
      (st.disk.filter (fun f => strEndsWith f.1 ".json")).length ∧
    invalidate_cache_for_user username st = invalidate_cache_for_user username' st := by
  simp [invalidate_cache_for_user, invalidate_foldl]

/-- C1 counterexample: the distinct usernames `Alice` and `alice` receive
the SAME auth-state path, because sanitization lowercases. -/
theorem c1_path_isolation_counterexample :
    get_auth_state_path blinkitMgr "Alice" = get_auth_state_path blinkitMgr "alice" ∧
    "Alice" ≠ "alice" := by decide

/-- C1 (amended): auth-state paths are per-SANITIZED-username: whenever the
sanitized usernames differ, the paths differ and share exactly the
sessions base directory as common prefix (they split at the sanitized
username segment); usernames with equal sanitizations (differing only in
case or in stripped characters) collide. -/
theorem c1_path_isolation_amended (m : BlinkitSessionManager) (u₁ u₂ : String)
    (h : sanitize_username u₁ ≠ sanitize_username u₂) :
    get_auth_state_path m u₁ ≠ get_auth_state_path m u₂ ∧
    commonPrefix (get_auth_state_path m u₁) (get_auth_state_path m u₂) = sessions_dir m := by
  constructor
  · intro heq
    apply h
    simp only [get_auth_state_path, get_user_session_dir, List.append_assoc] at heq
    have := List.append_cancel_left heq
    simpa using this
  · simp only [get_auth_state_path, get_user_session_dir, List.append_assoc,
               List.cons_append, List.nil_append]
    exact commonPrefix_append (sessions_dir m) _ _ _ _ h

/-- C1 witness: `alice` and `bob` sanitize differently, so their paths
differ and split right after the sessions directory. -/
theorem c1_path_isolation_witness :
    get_auth_state_path blinkitMgr "alice" ≠ get_auth_state_path blinkitMgr "bob" ∧
    commonPrefix (get_auth_state_path blinkitMgr "alice") (get_auth_state_path blinkitMgr "bob") =
      sessions_dir blinkitMgr :=
  c1_path_isolation_amended blinkitMgr "alice" "bob" (by decide)

/-- C5: evaluation of `ensure_connected(max_retries=4)` with every attempt
failing.  Each failed attempt does move the manager to `ERROR`, and the
final failure raises carrying the last underlying error; but the
inter-attempt delays are `1 * (attempt + 1)` seconds — `[1, 2, 3]`,
linear — not the exponential `1 * 2 ^ attempt` = `[1, 2, 4]` claimed
(the source's own comment says "Exponential backoff"). -/
theorem c5_backoff_linear_eval :
    c5Run.delays = [1, 2, 3] ∧
    c5Run.delays ≠ [1, 2, 4] ∧
    c5Run.statesAfterAttempts =
      [ConnectionStatus.ERROR, ConnectionStatus.ERROR, ConnectionStatus.ERROR,
       ConnectionStatus.ERROR] ∧
    c5Run.result = Except.error "e4" ∧
    c5Run.final.state = ConnectionStatus.ERROR ∧
    c5Run.final.metrics.last_error = some "e4" ∧
    c5Run.final.metrics.connection_attempts = 4 ∧
    c5Run.final.metrics.connection_failures = 4 := by
  decide

/-- C6: evaluation of the circuit breaker around its cooldown.  After five
consecutive failures the breaker is `OPEN`; a call 30 s later
short-circuits without touching the breaker; a call exactly at the 60 s
cooldown runs one probe, closing on success and re-opening on failure.
BUT a call one full day after the failures — cooldown long elapsed — is
still rejected, because the code reads `.seconds` (the component modulo
86400) instead of `total_seconds()`. -/
theorem c6_circuit_cooldown_eval :
    c6OpenBreaker.state = CircuitState.OPEN ∧
    c6OpenBreaker.failure_count = 5 ∧
    c6OpenBreaker.last_failure_time = some 0 ∧
    (c6OpenBreaker.call 30 (Except.ok "r")).1 = CallOutcome.rejected ∧
    (c6OpenBreaker.call 30 (Except.ok "r")).2 = c6OpenBreaker ∧
    (c6OpenBreaker.call 60 (Except.ok "r")).1 = CallOutcome.succeeded ∧
    (c6OpenBreaker.call 60 (Except.ok "r")).2.state = CircuitState.CLOSED ∧
    (c6OpenBreaker.call 60 (Except.error "x")).1 = CallOutcome.failed ∧
    (c6OpenBreaker.call 60 (Except.error "x")).2.state = CircuitState.OPEN ∧
    (86400 : Int) - 0 ≥ defaultBreaker.timeout ∧
    (c6OpenBreaker.call 86400 (Except.ok "r")).1 = CallOutcome.rejected := by
  decide

/-- C3 counterexample: a response cached for a profile at time 0 is still
returned — from the MEMORY tier — 13 hours later, although the stored disk
entry is then older than the 12-hour TTL: the memory tier performs no TTL
(or invalidation) check. -/
theorem c3_cache_memory_ttl_counterexample :
    (get_cached_response 12 c3State "img" "recipes" (some c3Profile) (13 * 3600)).1 =
      some "resp" ∧
    alLookup c3State.disk (get_cache_key "img" "recipes" (some c3Profile) ++ ".json") =
      some ⟨0, "resp", "recipes", false, some (generate_profile_hash c3Profile)⟩ ∧
    ((13 : Int) * 3600) - 0 > (12 : Int) * 3600 := by
  refine ⟨?_, ?_, by decide⟩
  · simp [get_cached_response, c3State, cache_response, alLookup_alInsert_self]
  · simp [c3State, cache_response, alLookup_alInsert_self]

/-- C3 (amended): a hit served from the ON-DISK tier does satisfy all
three conditions — the stored entry is not invalidated, its age is within
the TTL, and (when a profile is supplied) its stored fingerprint equals
the supplied profile's fingerprint — and the returned payload is the
stored one.  (The in-memory tier re-checks none of this: it returns the
response stored under the key, which binds the fingerprint but not the
age.) -/
theorem c3_cache_hit_amended (ttl_hours : Nat) (st : CacheState) (image_hash mode : String)
    (user_profile : Option UserProfileDict) (now : Int) (r : String)
    (hmem : alLookup st.memory_cache (get_cache_key image_hash mode user_profile) = none)
    (hr : (get_cached_response ttl_hours st image_hash mode user_profile now).1 = some r) :
    ∃ e : DiskEntry,
      alLookup st.disk (get_cache_key image_hash mode user_profile ++ ".json") = some e ∧
      e.invalidated = false ∧
      now - e.cached_at ≤ (ttl_hours : Int) * 3600 ∧
      (∀ p, user_profile = some p → e.profile_version.getD "" = generate_profile_hash p) ∧
      r = e.response := by
  simp only [get_cached_response] at hr
  rw [hmem] at hr
  rcases hd : alLookup st.disk (get_cache_key image_hash mode user_profile ++ ".json") with
    _ | e
  · rw [hd] at hr
    simp at hr
  · rw [hd] at hr
    by_cases h1 : e.invalidated = true
    · simp [h1] at hr
    · by_cases h2 : now - e.cached_at > (ttl_hours : Int) * 3600
      · simp [h1, h2] at hr
      · rcases user_profile with _ | p
        · simp [h1, h2] at hr
          exact ⟨e, rfl, by simp [h1], by omega, by simp, hr.symm⟩
        · by_cases h3 : generate_profile_hash p ≠ e.profile_version.getD ""
          · simp [h1, h2, h3] at hr
          · simp [h1, h2, h3] at hr
            refine ⟨e, rfl, by simp [h1], by omega, ?_, hr.symm⟩
            intro q hq
            cases hq
            simpa using (not_not.mp h3).symm

/-- C3 witness: a disk-tier hit on a fresh, valid entry. -/
theorem c3_cache_hit_witness :
    ∃ e : DiskEntry,
      alLookup c3WitnessState.disk (get_cache_key "i" "m" none ++ ".json") = some e ∧
      e.invalidated = false ∧
      (0 : Int) - e.cached_at ≤ (12 : Int) * 3600 ∧
      (∀ p, (none : Option UserProfileDict) = some p →
        e.profile_version.getD "" = generate_profile_hash p) ∧
      "ok" = e.response :=
  c3_cache_hit_amended 12 c3WitnessState "i" "m" none 0 "ok" (by rfl) (by decide)

/-- C4 counterexample: registration passes the FULL normalized email to
the validator, so the password `Ab!12345` — which contains the local part
`ab` of `ab@x.co` but not the whole address — is ACCEPTED, although the
claim requires it to be rejected. -/
theorem c4_password_localpart_counterexample :
    registerPasswordAccepted "ab@x.co" "Ab!12345" = true ∧
    strContains (strLower "Ab!12345")
      (strLower (email_local_part (normalize_email "ab@x.co"))) = true := by
  decide

/-- C4 (amended): the registration password policy accepts a password iff
it has at least 8 characters, an uppercase letter, a lowercase letter, a
digit and a symbol, its lowercase form is not in the static
common-passwords set, and it does not contain the FULL normalized email
address (case-insensitively) — containment of just the email's local part
is not rejected. -/
theorem c4_password_policy_amended (email password : String)
    (hu : normalize_email email ≠ "") :
    registerPasswordAccepted email password = true ↔
      (passwordMinLength ≤ password.data.length ∧
       password.data.any Char.isUpper = true ∧
       password.data.any Char.isLower = true ∧
       password.data.any Char.isDigit = true ∧
       password.data.any (fun c => specialChars.contains c) = true ∧
       COMMON_PASSWORDS.contains (strLower password) = false ∧
       strContains (strLower password) (strLower (normalize_email email)) = false) := by
  unfold registerPasswordAccepted passwordIsValid passwordValidateErrors
  simp [List.isEmpty_iff, hu, Nat.not_lt, and_assoc]

/-- C4 witness: the characterization at a concrete email. -/
theorem c4_password_policy_witness :
    registerPasswordAccepted "ab@x.co" "Tr0ub4dor&3x" = true ↔
      (passwordMinLength ≤ "Tr0ub4dor&3x".data.length ∧
       "Tr0ub4dor&3x".data.any Char.isUpper = true ∧
       "Tr0ub4dor&3x".data.any Char.isLower = true ∧
       "Tr0ub4dor&3x".data.any Char.isDigit = true ∧
       "Tr0ub4dor&3x".data.any (fun c => specialChars.contains c) = true ∧
       COMMON_PASSWORDS.contains (strLower "Tr0ub4dor&3x") = false ∧
       strContains (strLower "Tr0ub4dor&3x") (strLower (normalize_email "ab@x.co")) = false) :=
  c4_password_policy_amended "ab@x.co" "Tr0ub4dor&3x" (by decide)

/-- `update_one` matched nothing iff no document satisfies the filter. -/
theorem updateOneDoc_fst_zero_iff {α : Type} (p : α → Bool) (f : α → α) (l : List α) :
    (updateOneDoc p f l).1 = 0 ↔ ∀ d ∈ l, ¬ p d = true := by
  induction l with
  | nil => simp [updateOneDoc]
  | cons hd tl ih =>
    by_cases h : p hd
    · simp [updateOneDoc, h]
    · simp [updateOneDoc, h, ih]

/-- `update_one` that matched nothing wrote nothing. -/
theorem updateOneDoc_snd_of_fst_zero {α : Type} (p : α → Bool) (f : α → α) (l : List α)
    (h : (updateOneDoc p f l).1 = 0) : (updateOneDoc p f l).2 = l := by
  induction l with
  | nil => simp [updateOneDoc]
  | cons hd tl ih =>
    by_cases hp : p hd
    · simp [updateOneDoc, hp] at h
    · simp only [updateOneDoc, hp] at h ⊢
      simp at h ⊢
      exact ih h

/-- `update_one` that matched rewrote the first matching document in
place: the collection becomes `l.set i (f l[i])` for the first matching
index `i`. -/
theorem updateOneDoc_of_matched {α : Type} (p : α → Bool) (f : α → α) (l : List α)
    (h : ¬ (updateOneDoc p f l).1 = 0) :
    ∃ d ∈ l, p d = true ∧ f d ∈ (updateOneDoc p f l).2 := by
  induction l with
  | nil => simp [updateOneDoc] at h
  | cons hd tl ih =>
    by_cases hp : p hd
    · exact ⟨hd, by simp, hp, by simp [updateOneDoc, hp]⟩
    · have h' : ¬ (updateOneDoc p f tl).1 = 0 := by
        simpa [updateOneDoc, hp] using h
      obtain ⟨d, hmem, hpd, hfd⟩ := ih h'
      refine ⟨d, List.mem_cons_of_mem _ hmem, hpd, ?_⟩
      have hsnd : (updateOneDoc p f (hd :: tl)).2 = hd :: (updateOneDoc p f tl).2 := by
        simp [updateOneDoc, hp]
      rw [hsnd]
      exact List.mem_cons_of_mem _ hfd

/-- C7: for a GroceryList update with `expected_version = v`: the update
succeeds iff a stored row for the (user, list) key has version `v` (the
filter carries the version, so the read and the write are one atomic
`update_one` inside the transaction); on success the matched row's version
becomes exactly `v + 1` (with the caller's fields and a fresh
`updated_at`); when no row matches but the row exists with a different
version, the operation raises the version-conflict error — and a
zero-match update wrote nothing, so the row is unchanged. -/
theorem c7_optimistic_locking (store : List GroceryDoc) (username list_name : String)
    (updates : GroceryUpdates) (v : Nat) (now : Int) :
    ((∃ d ∈ store, d.username = username ∧ d.name = list_name ∧ d.version = v) ↔
      ∃ store', update_grocery_list_with_locking store username list_name updates
        (some v) now = Except.ok store') ∧
    (∀ store', update_grocery_list_with_locking store username list_name updates
        (some v) now = Except.ok store' →
      ∃ d ∈ store, (d.username = username ∧ d.name = list_name ∧ d.version = v) ∧
        groceryApply updates (some v) now d ∈ store' ∧
        (groceryApply updates (some v) now d).version = v + 1 ∧
        (groceryApply updates (some v) now d).name = updates.name ∧
        (groceryApply updates (some v) now d).items = updates.items ∧
        (groceryApply updates (some v) now d).updated_at = now) ∧
    ((¬ ∃ d ∈ store, d.username = username ∧ d.name = list_name ∧ d.version = v) →
      (∃ d ∈ store, d.username = username ∧ d.name = list_name) →
      update_grocery_list_with_locking store username list_name updates (some v) now =
        Except.error GroceryError.versionConflict ∧
      (updateOneDoc (groceryQuery username list_name (some v))
        (groceryApply updates (some v) now) store).2 = store) := by
  have hquery : ∀ d : GroceryDoc,
      groceryQuery username list_name (some v) d = true ↔
        (d.username = username ∧ d.name = list_name ∧ d.version = v) := by
    intro d
    simp [groceryQuery, and_assoc]
  have hver : pyOrZero (some v) = v := by
    by_cases h : v = 0 <;> simp [pyOrZero, h]
  refine ⟨⟨?_, ?_⟩, ?_, ?_⟩
  · rintro ⟨d, hmem, hd⟩
    have hnz : ¬ (updateOneDoc (groceryQuery username list_name (some v))
        (groceryApply updates (some v) now) store).1 = 0 := by
      rw [updateOneDoc_fst_zero_iff]
      push_neg
      exact ⟨d, hmem, by rw [hquery]; exact hd⟩
    refine ⟨(updateOneDoc (groceryQuery username list_name (some v))
        (groceryApply updates (some v) now) store).2, ?_⟩
    unfold update_grocery_list_with_locking
    rw [if_neg hnz]
  · rintro ⟨store', hok⟩
    unfold update_grocery_list_with_locking at hok
    by_cases hz : (updateOneDoc (groceryQuery username list_name (some v))
        (groceryApply updates (some v) now) store).1 = 0
    · rw [if_pos hz] at hok
      rcases hfind : store.find? (fun d => d.username == username && d.name == list_name) with
        _ | d <;> simp [hfind] at hok
    · rw [updateOneDoc_fst_zero_iff] at hz
      push_neg at hz
      obtain ⟨d, hmem, hpd⟩ := hz
      exact ⟨d, hmem, (hquery d).mp (by simpa using hpd)⟩
  · intro store' hok
    unfold update_grocery_list_with_locking at hok
    by_cases hz : (updateOneDoc (groceryQuery username list_name (some v))
        (groceryApply updates (some v) now) store).1 = 0
    · rw [if_pos hz] at hok
      rcases hfind : store.find? (fun d => d.username == username && d.name == list_name) with
        _ | d <;> simp [hfind] at hok
    · rw [if_neg hz] at hok
      obtain ⟨d, hmem, hpd, hfd⟩ := updateOneDoc_of_matched _ _ _ hz
      refine ⟨d, hmem, (hquery d).mp hpd, ?_, by simp [groceryApply, hver], rfl, rfl, rfl⟩
      rw [← (Except.ok.inj hok)]
      exact hfd
  · rintro hnone ⟨d, hmem, hd⟩
    have hz : (updateOneDoc (groceryQuery username list_name (some v))
        (groceryApply updates (some v) now) store).1 = 0 := by
      rw [updateOneDoc_fst_zero_iff]
      intro d' hmem' hpd'
      exact hnone ⟨d', hmem', (hquery d').mp hpd'⟩
    have hfind : ∃ d', store.find? (fun x => x.username == username && x.name == list_name) =
        some d' := by
      have : (store.find? (fun x => x.username == username && x.name == list_name)).isSome := by
        rw [List.find?_isSome]
        exact ⟨d, hmem, by simp [hd.1, hd.2]⟩
      exact Option.isSome_iff_exists.mp this
    obtain ⟨d', hfind⟩ := hfind
    constructor
    · unfold update_grocery_list_with_locking
      rw [if_pos hz, hfind]
    · exact updateOneDoc_snd_of_fst_zero _ _ _ hz

/-- A validated token's claims are the token's own claims. -/
theorem validate_token_eq_some {tm : TokenManager} {tok : Jwt} {ty : TokenType} {now : Int}
    {c : TokenClaims} (h : validate_token tm tok ty now = some c) : c = tok.claims := by
  unfold validate_token at h
  split_ifs at h
  exact (Option.some.inj h).symm

/-- Every write `_create_session` issues carries no transaction tag:
neither insert is given a client session. -/
theorem create_session_writes_untagged (tm : TokenManager) (db : SessionDb)
    (user_id email : String) (metadata : List (String × String)) (now : Int)
    (jtiA jtiR : String) (faults : SessionDbFaults) :
    ∀ w ∈ (create_session tm db user_id email metadata now jtiA jtiR faults).2.2,
      writeTxn w = none := by
  intro w hw
  unfold create_session at hw
  dsimp only at hw
  rcases hA : validate_token tm (generate_access_token tm user_id email now jtiA)
      TokenType.ACCESS now with _ | ac <;>
    rcases hR : validate_token tm (generate_refresh_token tm user_id email now jtiR)
        TokenType.REFRESH now with _ | rc <;>
    rw [hA, hR] at hw
  · simp at hw
  · simp at hw
  · simp at hw
  · simp only [] at hw
    split_ifs at hw
    · simp at hw
    · simp at hw
      subst hw
      rfl
    · simp at hw
      rcases hw with rfl | rfl <;> rfl

/-- C2 counterexample: a concrete fault-free session creation returns a
TokenPair after issuing exactly two writes — the session insert and the
audit insert — and those writes are NOT enclosed in a single transaction
(no write carries a transaction): the source runs both inserts on a bare
connection context. -/
theorem c2_session_transaction_counterexample :
    (∃ pair, c2Run.1 = Except.ok pair) ∧
    c2Run.2.2.length = 2 ∧
    ¬ inSingleTransaction c2Run.2.2 := by
  refine ⟨⟨⟨generate_access_token c2Tm "uid1" "alice@example.com" 1000 "jtiA",
            generate_refresh_token c2Tm "uid1" "alice@example.com" 1000 "jtiR"⟩,
           by decide⟩, by decide, ?_⟩
  rintro ⟨hne, t, ht⟩
  obtain ⟨w, hw⟩ := List.exists_mem_of_ne_nil _ hne
  have h1 := ht w hw
  have h2 : writeTxn w = none :=
    create_session_writes_untagged c2Tm ⟨[], []⟩ "uid1" "alice@example.com" [] 1000
      "jtiA" "jtiR" ⟨false, false⟩ w hw
  rw [h2] at h1
  cases h1

/-- C2 (amended): session creation issues the session insert and the
`tokens_issued` audit insert as two separate writes on a plain connection
(no transaction encloses them); still, whenever a TokenPair is returned, a
session row with `access_token_jti` equal to the returned access token's
jti and `revoked = false` was written (first, before the audit record and
before the return), and when the session write fails no TokenPair is
returned and the store is untouched. -/
theorem c2_session_creation_amended (tm : TokenManager) (db : SessionDb)
    (user_id email : String) (metadata : List (String × String)) (now : Int)
    (jtiA jtiR : String) (faults : SessionDbFaults) :
    (∀ pair, (create_session tm db user_id email metadata now jtiA jtiR faults).1 =
        Except.ok pair →
      ∃ row, row ∈ (create_session tm db user_id email metadata now jtiA jtiR faults).2.1.sessions ∧
        row.access_token_jti = pair.access_token.claims.jti ∧
        row.revoked = false ∧
        ∃ audit, (create_session tm db user_id email metadata now jtiA jtiR faults).2.2 =
          [SessionDbWrite.insertSession row none, SessionDbWrite.insertAudit audit none]) ∧
    (faults.session_insert_fails = true →
      (∃ e, (create_session tm db user_id email metadata now jtiA jtiR faults).1 =
        Except.error e) ∧
      (create_session tm db user_id email metadata now jtiA jtiR faults).2.1 = db ∧
      (create_session tm db user_id email metadata now jtiA jtiR faults).2.2 = []) ∧
    (∀ w ∈ (create_session tm db user_id email metadata now jtiA jtiR faults).2.2,
      writeTxn w = none) := by
  refine ⟨?_, ?_, create_session_writes_untagged tm db user_id email metadata now jtiA jtiR faults⟩
  · intro pair hpair
    unfold create_session at hpair ⊢
    dsimp only at hpair ⊢
    rcases hA : validate_token tm (generate_access_token tm user_id email now jtiA)
        TokenType.ACCESS now with _ | ac <;>
      rcases hR : validate_token tm (generate_refresh_token tm user_id email now jtiR)
          TokenType.REFRESH now with _ | rc <;>
      rw [hA, hR] at hpair <;>
      dsimp only at hpair ⊢
    · cases hpair
    · cases hpair
    · cases hpair
    · by_cases hf1 : faults.session_insert_fails = true
      · rw [if_pos hf1] at hpair
        cases hpair
      · rw [if_neg hf1] at hpair ⊢
        by_cases hf2 : faults.audit_insert_fails = true
        · rw [if_pos hf2] at hpair
          cases hpair
        · rw [if_neg hf2] at hpair ⊢
          cases hpair
          have hac : ac = (generate_access_token tm user_id email now jtiA).claims :=
            validate_token_eq_some hA
          refine ⟨_, by simp, ?_, rfl, _, rfl⟩
          rw [hac]
  · intro hf
    unfold create_session
    dsimp only
    rcases hA : validate_token tm (generate_access_token tm user_id email now jtiA)
        TokenType.ACCESS now with _ | ac <;>
      rcases hR : validate_token tm (generate_refresh_token tm user_id email now jtiR)
          TokenType.REFRESH now with _ | rc <;>
      dsimp only
    · exact ⟨⟨_, rfl⟩, rfl, rfl⟩
    · exact ⟨⟨_, rfl⟩, rfl, rfl⟩
    · exact ⟨⟨_, rfl⟩, rfl, rfl⟩
    · rw [if_pos hf]
      exact ⟨⟨_, rfl⟩, rfl, rfl⟩

/-- Updating the first row with an id, then looking that id up, yields the
updated row — provided the update preserves the id. -/
theorem findUserById_updateUserById (users : List UserRow) (id : Nat) (f : UserRow → UserRow)
    (hf : ∀ u, (f u).id = u.id) (u0 : UserRow) (h : findUserById users id = some u0) :
    findUserById (updateUserById users id f) id = some (f u0) := by
  induction users with
  | nil => simp [findUserById] at h
  | cons hd tl ih =>
    by_cases hid : hd.id == id
    · have hu0 : u0 = hd := by
        simp [findUserById, List.find?, hid] at h
        exact h.symm
      subst hu0
      have hfid : ((f u0).id == id) = true := by
        rw [hf u0]
        exact hid
      simp [findUserById, updateUserById, updateOneDoc, hid, List.find?, hfid]
    · have h' : findUserById tl id = some u0 := by
        simpa [findUserById, List.find?, hid] using h
      have := ih h'
      simpa [findUserById, updateUserById, updateOneDoc, hid, List.find?] using this

/-- Any member's id is findable. -/
theorem findUserById_exists_of_mem (users : List UserRow) (u : UserRow) (h : u ∈ users) :
    ∃ u0, findUserById users u.id = some u0 := by
  have hs : (users.find? (fun x => x.id == u.id)).isSome := by
    rw [List.find?_isSome]
    exact ⟨u, h, by simp⟩
  exact Option.isSome_iff_exists.mp hs

/-- `failedLoginUpdate` and `successLoginUpdate` keep the row id. -/
theorem loginUpdates_preserve_id (cfg : AuthCfg) (fa : Nat) (now : Int) :
    (∀ u : UserRow, (failedLoginUpdate cfg fa now u).id = u.id) ∧
    (∀ u : UserRow, (successLoginUpdate now u).id = u.id) := by
  constructor
  · intro u
    unfold failedLoginUpdate
    split_ifs <;> rfl
  · intro u
    rfl

/-- C8: password authentication under the default configuration
(threshold 5, lockout 1800 s, no email verification): while
`locked_until > now` the result is the locked failure regardless of the
password and the store is untouched; with no active lock, a hash mismatch
increments `failed_login_attempts` and — at the threshold — sets
`locked_until = now + 1800`; a hash match resets the counter to 0, clears
the lock, and stamps `last_login = now`. -/
theorem c8_lockout_policy (db : AuthDb) (creds : Credentials) (now : Int) (user : UserRow)
    (h : findUserByEmail db.users (normalize_email creds.email) = some user) :
    (∀ t, user.security.locked_until = some t → now < t →
      authenticate defaultAuthCfg db creds now =
        (⟨false, none, none, some (lockedMessage t now), false⟩, db)) ∧
    ((∀ t, user.security.locked_until = some t → t ≤ now) →
      checkpw creds.password user.password_hash = false →
      (authenticate defaultAuthCfg db creds now).1.success = false ∧
      ∃ u', findUserById (authenticate defaultAuthCfg db creds now).2.users user.id = some u' ∧
        u'.security.failed_login_attempts = user.security.failed_login_attempts + 1 ∧
        (user.security.failed_login_attempts + 1 ≥ defaultAuthCfg.max_login_attempts →
          u'.security.locked_until = some (now + defaultAuthCfg.lockout_duration))) ∧
    ((∀ t, user.security.locked_until = some t → t ≤ now) →
      checkpw creds.password user.password_hash = true →
      (authenticate defaultAuthCfg db creds now).1.success = true ∧
      (authenticate defaultAuthCfg db creds now).1.user_id = some user.id ∧
      ∃ u', findUserById (authenticate defaultAuthCfg db creds now).2.users user.id = some u' ∧
        u'.security.failed_login_attempts = 0 ∧
        u'.security.locked_until = none ∧
        u'.security.last_login = some now) := by
  have hmem : user ∈ db.users := List.mem_of_find?_eq_some h
  obtain ⟨u0, hu0⟩ := findUserById_exists_of_mem db.users user hmem
  have hunlocked : ∀ hle : (∀ t, user.security.locked_until = some t → t ≤ now),
      authenticate defaultAuthCfg db creds now =
        authenticateUnlocked defaultAuthCfg db creds (normalize_email creds.email) user now := by
    intro hle
    unfold authenticate
    dsimp only
    rw [h]
    dsimp only
    rcases hlu : user.security.locked_until with _ | t
    · rfl
    · dsimp only
      rw [if_neg (not_lt.mpr (hle t hlu))]
  refine ⟨?_, ?_, ?_⟩
  · intro t ht hlt
    unfold authenticate
    dsimp only
    rw [h]
    dsimp only
    rw [ht]
    dsimp only
    rw [if_pos hlt]
  · intro hle hc
    rw [hunlocked hle]
    unfold authenticateUnlocked
    rw [if_pos (by rw [hc]; exact Bool.false_ne_true)]
    refine ⟨rfl, failedLoginUpdate defaultAuthCfg (user.security.failed_login_attempts + 1) now u0,
      ?_, ?_, ?_⟩
    · exact findUserById_updateUserById db.users user.id _
        (fun u => (loginUpdates_preserve_id defaultAuthCfg _ now).1 u) u0 hu0
    · unfold failedLoginUpdate
      split_ifs <;> rfl
    · intro hth
      unfold failedLoginUpdate
      rw [if_pos hth]
  · intro hle hc
    rw [hunlocked hle]
    unfold authenticateUnlocked
    rw [if_neg (by rw [hc]; simp), if_neg (by simp [defaultAuthCfg])]
    refine ⟨rfl, rfl, successLoginUpdate now u0, ?_, rfl, rfl, rfl⟩
    exact findUserById_updateUserById db.users user.id _
      (fun u => (loginUpdates_preserve_id defaultAuthCfg 0 now).2 u) u0 hu0

/-- C8 witness: `bob` with four prior failures and no lock; the statement
of the policy theorem at this concrete database. -/
theorem c8_lockout_policy_witness :
    (∀ t, c8User.security.locked_until = some t → (100 : Int) < t →
      authenticate defaultAuthCfg c8Db c8Creds 100 =
        (⟨false, none, none, some (lockedMessage t 100), false⟩, c8Db)) ∧
    ((∀ t, c8User.security.locked_until = some t → t ≤ (100 : Int)) →
      checkpw c8Creds.password c8User.password_hash = false →
      (authenticate defaultAuthCfg c8Db c8Creds 100).1.success = false ∧
      ∃ u', findUserById (authenticate defaultAuthCfg c8Db c8Creds 100).2.users c8User.id =
          some u' ∧
        u'.security.failed_login_attempts = c8User.security.failed_login_attempts + 1 ∧
        (c8User.security.failed_login_attempts + 1 ≥ defaultAuthCfg.max_login_attempts →
          u'.security.locked_until = some (100 + defaultAuthCfg.lockout_duration))) ∧
    ((∀ t, c8User.security.locked_until = some t → t ≤ (100 : Int)) →
      checkpw c8Creds.password c8User.password_hash = true →
      (authenticate defaultAuthCfg c8Db c8Creds 100).1.success = true ∧
      (authenticate defaultAuthCfg c8Db c8Creds 100).1.user_id = some c8User.id ∧
      ∃ u', findUserById (authenticate defaultAuthCfg c8Db c8Creds 100).2.users c8User.id =
          some u' ∧
        u'.security.failed_login_attempts = 0 ∧
        u'.security.locked_until = none ∧
        u'.security.last_login = some (100 : Int)) :=
  c8_lockout_policy c8Db c8Creds 100 c8User (by decide)

end FreshScan
